import Mathlib

/-!
Shallow embedding of `src/calculator.cpp` (JakeLane/shunting-yard-calculator):
a line-oriented infix calculator built from a tokenizer (`tokenise`, lines
41-87) and an eager shunting-yard evaluator (`expression`, lines 101-192)
over a fixed operator-contract table (`opContracts`, lines 21-31).

Modelling conventions:
- C++ `double` values are modelled as `ℚ`; every input exercised by the
  claims uses small integers, on which double arithmetic is exact.
- Each `exit(EXIT_FAILURE)` site is modelled as a distinct `CalcError`
  constructor carrying the diagnostic it prints.
- Reads of indeterminate data (the front of an empty `std::queue`, the
  fields or function pointer of a default-constructed `OpContract` that
  `std::map::operator[]` inserted) are modelled as the distinguished
  `ubEmptyFront` / `ubUninitCompare` / `ubUninitCall` outcomes: the C++
  program has no defined behaviour there.
-/

set_option maxRecDepth 4000

namespace ShuntingYard

/-- Every way one line of `calculator.cpp` can terminate the process early,
one constructor per `exit(EXIT_FAILURE)` site or undefined-behaviour read:
`invalidNumber` = "Invalid token" (line 69), `unsupportedOperator` =
"Operator <c> is not supported" (line 96), `mismatchedParenthesis` =
"Mismatched parenthesis" (lines 160, 174), `insufficientOperands` =
"Mismatched operands" (line 179), `ubEmptyFront` = `output.front()` on an
empty queue (lines 126/128, 150/152, 191), `ubUninitCompare` = reading the
precedence/associativity fields of a default-constructed `OpContract`
(lines 119-122), `ubUninitCall` = calling the uninitialized function
pointer of a default-constructed `OpContract` (line 94). -/
inductive CalcError where
  | invalidNumber
  | unsupportedOperator (symbol : Char)
  | mismatchedParenthesis
  | insufficientOperands
  | ubEmptyFront
  | ubUninitCompare
  | ubUninitCall
  deriving DecidableEq, Repr

/-- calculator.cpp line 33: `enum TokenType`. -/
inductive TokenType where
  | LEFT_BRACKET
  | RIGHT_BRACKET
  | NUMBER
  | OPERATOR
  deriving DecidableEq, Repr

/-- calculator.cpp lines 35-39: `struct Token`. The C++ code leaves `symbol`
unset on non-OPERATOR tokens and `value` unset on non-NUMBER tokens and
never reads them there; the model fixes them to `' '` and `0`. -/
structure Token where
  type : TokenType
  symbol : Char := ' '
  value : ℚ := 0
  deriving DecidableEq, Repr

/-- calculator.cpp lines 12-19: `struct OpContract`, with the function
pointer modelled as a rational binary function. -/
structure OpContract where
  func : ℚ → ℚ → ℚ
  precedence : Int
  leftAssociativity : Bool

/-- Model of `pow(a, b)` (line 30) on the rationals: exact for the
natural-number exponents every verified input produces; other exponents
never occur in the claims and are mapped to 0. -/
def powRat (a b : ℚ) : ℚ :=
  if b.den = 1 ∧ 0 ≤ b.num then a ^ b.num.toNat else 0

/-- The `std::map<char, OpContract>` state, as an association list. An entry
`(c, none)` is a default-constructed `OpContract` (uninitialized fields)
that `operator[]` inserted for a missing key. -/
abbrev ContractMap := List (Char × Option OpContract)

/-- calculator.cpp lines 21-31: the five operator contracts the map holds at
process start. -/
def opContracts : ContractMap :=
  [('+', some ⟨fun a b => a + b, 1, true⟩),
   ('-', some ⟨fun a b => a - b, 1, true⟩),
   ('*', some ⟨fun a b => a * b, 2, true⟩),
   ('/', some ⟨fun a b => a / b, 2, true⟩),
   ('^', some ⟨fun a b => powRat a b, 3, false⟩)]

/-- Model of `std::map::find` (line 91): the entry for `k`, or `none` when `k` is not
a key. -/
def mapFind (m : ContractMap) (k : Char) : Option (Option OpContract) :=
  match m with
  | [] => none
  | (c, e) :: rest => if c = k then some e else mapFind rest k

/-- Model of `std::map::operator[]` (lines 113 and 118): the entry for `k`, together
with the map afterwards — when `k` is missing a default-constructed
(uninitialized, modelled `none`) entry is inserted. -/
def mapIndex (m : ContractMap) (k : Char) : Option OpContract × ContractMap :=
  match mapFind m k with
  | some e => (e, m)
  | none => (none, m ++ [(k, none)])

/-! Tokenizer (calculator.cpp lines 41-87) -/

/-- Leading decimal digits of `l` and the remainder (`isdigit`, and the
digit-run consumption inside `stream >> t.value`). -/
def takeDigits : List Char → List Char × List Char
  | [] => ([], [])
  | c :: r =>
    if c.isDigit then
      let p := takeDigits r
      (c :: p.1, p.2)
    else ([], c :: r)

/-- Numeric value of a digit character. -/
def digToNat (c : Char) : ℕ := c.toNat - '0'.toNat

/-- Numeric value of a run of decimal digits. -/
def digitsVal (ds : List Char) : ℕ := ds.foldl (fun a c => 10 * a + digToNat c) 0

/-- Mantissa continuation once the integer digits `ds` are consumed and
`rest` remains: an optional `.`-plus-digits fractional part. Fails when the
literal holds no digit at all (then `stream >> t.value` sets failbit). -/
def parseMantissaRest (ds : List Char) (rest : List Char) : Option (ℚ × List Char) :=
  match rest with
  | [] => if ds.isEmpty then none else some ((digitsVal ds : ℚ), [])
  | c :: r =>
    if c = '.' then
      let q := takeDigits r
      if ds.isEmpty && q.1.isEmpty then none
      else some ((digitsVal ds : ℚ) + (digitsVal q.1 : ℚ) / (10 : ℚ) ^ q.1.length, q.2)
    else if ds.isEmpty then none else some ((digitsVal ds : ℚ), c :: r)

/-- Mantissa of a C++ floating-point literal: digits, optionally followed by
`.` and more digits. Returns the value and the rest. -/
def parseMantissa (l : List Char) : Option (ℚ × List Char) :=
  parseMantissaRest (takeDigits l).1 (takeDigits l).2

/-- Required digits of an exponent whose sign is already consumed (an
exponent marker with no digits makes the whole extraction fail, as
`num_get` does). Scales the mantissa `m`. -/
def parseExpDigits (l : List Char) (sgn : Int) (m : ℚ) : Option (ℚ × List Char) :=
  if (takeDigits l).1.isEmpty then none
  else some (m * (10 : ℚ) ^ (sgn * (digitsVal (takeDigits l).1 : Int)), (takeDigits l).2)

/-- Exponent part after a consumed `e`/`E`: optional sign then required
digits. -/
def parseExpAfterE (l : List Char) (m : ℚ) : Option (ℚ × List Char) :=
  match l with
  | [] => parseExpDigits [] 1 m
  | c :: r =>
    if c = '+' then parseExpDigits r 1 m
    else if c = '-' then parseExpDigits r (-1) m
    else parseExpDigits (c :: r) 1 m

/-- Optional exponent suffix of a floating-point literal. -/
def parseExpSuffix (l : List Char) (m : ℚ) : Option (ℚ × List Char) :=
  match l with
  | [] => some (m, [])
  | c :: r => if c = 'e' || c = 'E' then parseExpAfterE r m else some (m, c :: r)

/-- Unsigned literal with the sign `sgn` already applied on success. -/
def parseAbs (l : List Char) (sgn : ℚ) : Option (ℚ × List Char) :=
  match parseMantissa l with
  | none => none
  | some (m, r) =>
    match parseExpSuffix r m with
    | none => none
    | some (v, r2) => some (sgn * v, r2)

/-- Model of `stream >> t.value` (lines 67 and 75) starting at the current
character: one C++ floating-point literal — optional sign, digits with
optional fractional part, optional exponent. `none` models a failed
extraction (failbit). -/
def parseFloat (l : List Char) : Option (ℚ × List Char) :=
  match l with
  | [] => parseAbs [] 1
  | c :: r =>
    if c = '+' then parseAbs r 1
    else if c = '-' then parseAbs r (-1)
    else parseAbs (c :: r) 1

theorem takeDigits_append (l : List Char) :
    (takeDigits l).1 ++ (takeDigits l).2 = l := by
  induction l with
  | nil => simp [takeDigits]
  | cons c r ih =>
    by_cases h : c.isDigit <;> simp [takeDigits, h, ih]

theorem takeDigits_snd_length (l : List Char) :
    (takeDigits l).2.length ≤ l.length := by
  conv_rhs => rw [← takeDigits_append l]
  simp

theorem parseMantissaRest_length {ds rest : List Char} {v : ℚ} {r : List Char}
    (h : parseMantissaRest ds rest = some (v, r)) :
    r.length ≤ rest.length ∧ (ds.isEmpty = true → r.length < rest.length) := by
  unfold parseMantissaRest at h
  rcases rest with _ | ⟨c, r0⟩
  · by_cases he : ds.isEmpty <;> simp [he] at h
    obtain ⟨-, h2⟩ := h
    subst h2
    simp [he]
  · by_cases hc : c = '.'
    · simp only [hc, if_pos rfl] at h
      by_cases he : ds.isEmpty && (takeDigits r0).1.isEmpty <;> simp [he] at h
      obtain ⟨-, h2⟩ := h
      subst h2
      have := takeDigits_snd_length r0
      constructor
      · simp; omega
      · intro _; simp; omega
    · simp only [if_neg hc] at h
      by_cases he : ds.isEmpty <;> simp [he] at h
      obtain ⟨-, h2⟩ := h
      subst h2
      simp [he]

theorem parseMantissa_length {l : List Char} {v : ℚ} {r : List Char}
    (h : parseMantissa l = some (v, r)) : r.length < l.length := by
  unfold parseMantissa at h
  obtain ⟨h1, h2⟩ := parseMantissaRest_length h
  have hl := congrArg List.length (takeDigits_append l)
  simp only [List.length_append] at hl
  by_cases he : (takeDigits l).1.isEmpty
  · have := h2 he
    omega
  · have : (takeDigits l).1 ≠ [] := by simpa [List.isEmpty_iff] using he
    have : 0 < (takeDigits l).1.length := List.length_pos.mpr this
    omega

theorem parseExpDigits_length {l : List Char} {sgn : Int} {m v : ℚ} {r : List Char}
    (h : parseExpDigits l sgn m = some (v, r)) : r.length ≤ l.length := by
  unfold parseExpDigits at h
  by_cases he : (takeDigits l).1.isEmpty <;> simp [he] at h
  obtain ⟨-, h2⟩ := h
  subst h2
  exact takeDigits_snd_length l

theorem parseExpAfterE_length {l : List Char} {m v : ℚ} {r : List Char}
    (h : parseExpAfterE l m = some (v, r)) : r.length ≤ l.length := by
  unfold parseExpAfterE at h
  rcases l with _ | ⟨c, r0⟩
  · exact parseExpDigits_length h
  · by_cases hp : c = '+'
    · simp only [hp, if_pos rfl] at h
      have := parseExpDigits_length h
      simp; omega
    · simp only [if_neg hp] at h
      by_cases hm : c = '-'
      · simp only [hm, if_pos rfl] at h
        have := parseExpDigits_length h
        simp; omega
      · simp only [if_neg hm] at h
        exact parseExpDigits_length h

theorem parseExpSuffix_length {l : List Char} {m v : ℚ} {r : List Char}
    (h : parseExpSuffix l m = some (v, r)) : r.length ≤ l.length := by
  unfold parseExpSuffix at h
  split at h
  · simp only [Option.some.injEq, Prod.mk.injEq] at h
    obtain ⟨-, h2⟩ := h
    subst h2
    exact le_refl _
  · split at h
    · have := parseExpAfterE_length h
      simp
      omega
    · simp only [Option.some.injEq, Prod.mk.injEq] at h
      obtain ⟨-, h2⟩ := h
      subst h2
      exact le_refl _

theorem parseAbs_length {l : List Char} {sgn v : ℚ} {r : List Char}
    (h : parseAbs l sgn = some (v, r)) : r.length < l.length := by
  unfold parseAbs at h
  split at h
  · exact absurd h (by simp)
  next m r1 hm =>
    split at h
    · exact absurd h (by simp)
    next v2 r2 hs =>
      simp only [Option.some.injEq, Prod.mk.injEq] at h
      obtain ⟨-, h2⟩ := h
      subst h2
      have h1 := parseMantissa_length hm
      have h3 := parseExpSuffix_length hs
      omega

theorem parseFloat_length {l : List Char} {v : ℚ} {r : List Char}
    (h : parseFloat l = some (v, r)) : r.length < l.length := by
  unfold parseFloat at h
  rcases l with _ | ⟨c, r0⟩
  · exact parseAbs_length h
  · by_cases hp : c = '+'
    · simp only [hp, if_pos rfl] at h
      have := parseAbs_length h
      simp; omega
    · simp only [if_neg hp] at h
      by_cases hm : c = '-'
      · simp only [hm, if_pos rfl] at h
        have := parseAbs_length h
        simp; omega
      · simp only [if_neg hm] at h
        exact parseAbs_length h

/-- calculator.cpp line 64: `tokens.empty() || (tokens.back().type != NUMBER)`
— the condition under which a `+`/`-` character starts a signed number. -/
def signIsNumberStart (tokens : List Token) : Bool :=
  tokens.isEmpty ||
    (match tokens.getLast? with
     | some t => decide (t.type ≠ TokenType.NUMBER)
     | none => true)

/-- calculator.cpp lines 44-85: the tokenizer loop over the remaining
characters, carrying the tokens pushed so far. The digit branch's `none`
case models C++11 failed extraction (value set to 0, failbit ends the
loop); it is unreachable because a literal that starts with a digit always
extracts. -/
def tokeniseAux (l : List Char) (tokens : List Token) : Except CalcError (List Token) :=
  match l with
  | [] => .ok tokens
  | c :: rest =>
    if c = ' ' then tokeniseAux rest tokens
    else if c = '(' then tokeniseAux rest (tokens ++ [{ type := .LEFT_BRACKET }])
    else if c = ')' then tokeniseAux rest (tokens ++ [{ type := .RIGHT_BRACKET }])
    else if (c = '+' || c = '-') && signIsNumberStart tokens then
      match hpf : parseFloat (c :: rest) with
      | none => .error .invalidNumber
      | some (v, rest') => tokeniseAux rest' (tokens ++ [{ type := .NUMBER, value := v }])
    else if c.isDigit then
      match hpf : parseFloat (c :: rest) with
      | none => .ok (tokens ++ [{ type := .NUMBER }])
      | some (v, rest') => tokeniseAux rest' (tokens ++ [{ type := .NUMBER, value := v }])
    else tokeniseAux rest (tokens ++ [{ type := .OPERATOR, symbol := c }])
termination_by l.length
decreasing_by
  all_goals first
    | exact parseFloat_length hpf
    | (simp; try omega)

/-- calculator.cpp lines 41-87: `tokenise`. -/
def tokenise (input : String) : Except CalcError (List Token) :=
  tokeniseAux input.toList []

/-! Evaluator (calculator.cpp lines 89-192) -/

/-- The operand-queue pops at lines 126-129 / 150-153 / 183-186:
`left = output.front(); output.pop(); right = output.front(); output.pop();`.
`std::queue` is FIFO, so `front` is the OLDEST queued value. With fewer than
two values queued the C++ code reads the front of an empty queue —
undefined behaviour, modelled `ubEmptyFront`. -/
def popTwo (output : List ℚ) : Except CalcError (ℚ × ℚ × List ℚ) :=
  match output with
  | left :: right :: rest => .ok (left, right, rest)
  | _ => .error .ubEmptyFront

/-- calculator.cpp lines 89-99: `evaluate`. Looks the symbol up with `find`;
a missing key is "Operator <c> is not supported"; a key whose entry is the
default-constructed insertion left behind by `operator[]` makes the code
call an uninitialized function pointer (`ubUninitCall`). -/
def evaluate (m : ContractMap) (left : ℚ) (op : Char) (right : ℚ) :
    Except CalcError ℚ :=
  match mapFind m op with
  | some (some c) => .ok (c.func left right)
  | some none => .error .ubUninitCall
  | none => .error (.unsupportedOperator op)

/-- calculator.cpp lines 112-136: the reduction loop run when an OPERATOR
token `sym` arrives. Note the C++ order: `opContracts[token.symbol]` is
indexed (inserting a default entry when missing) on every iteration BEFORE
the stack top's type is tested; then `opContracts[op2.symbol]` is indexed;
only then are the contracts' fields compared (uninitialized fields:
`ubUninitCompare`). Returns the updated map, operand queue and operator
stack. -/
def reduceOps (m : ContractMap) (sym : Char) (output : List ℚ) :
    List Token → Except CalcError (ContractMap × List ℚ × List Token)
  | [] => .ok (m, output, [])
  | op2 :: rest =>
    let p1 := mapIndex m sym
    if op2.type ≠ TokenType.OPERATOR then .ok (p1.2, output, op2 :: rest)
    else
      let p2 := mapIndex p1.2 op2.symbol
      match p1.1, p2.1 with
      | some c1, some c2 =>
        if (c1.leftAssociativity && decide (c1.precedence ≤ c2.precedence))
            || (!c1.leftAssociativity && decide (c1.precedence < c2.precedence)) then
          match popTwo output with
          | .error e => .error e
          | .ok (left, right, out1) =>
            match evaluate p2.2 left op2.symbol right with
            | .error e => .error e
            | .ok v => reduceOps p2.2 sym (out1 ++ [v]) rest
        else .ok (p2.2, output, op2 :: rest)
      | _, _ => .error .ubUninitCompare

/-- calculator.cpp lines 144-164: on a RIGHT_BRACKET, pop-and-apply until a
LEFT_BRACKET is on top (then drop it); an emptied stack is "Mismatched
parenthesis". -/
def reduceTilBracket (m : ContractMap) (output : List ℚ) :
    List Token → Except CalcError (ContractMap × List ℚ × List Token)
  | [] => .error .mismatchedParenthesis
  | op :: rest =>
    if op.type = TokenType.LEFT_BRACKET then .ok (m, output, rest)
    else
      match popTwo output with
      | .error e => .error e
      | .ok (left, right, out1) =>
        match evaluate m left op.symbol right with
        | .error e => .error e
        | .ok v => reduceTilBracket m (out1 ++ [v]) rest

/-- calculator.cpp lines 168-189: the post-scan loop. A leftover bracket is
"Mismatched parenthesis"; this loop (alone) guards the operand pops with
`output.size() < 2` → "Mismatched operands" (`insufficientOperands`). -/
def finalReduce (m : ContractMap) (output : List ℚ) :
    List Token → Except CalcError (List ℚ)
  | [] => .ok output
  | t :: rest =>
    if t.type = TokenType.LEFT_BRACKET ∨ t.type = TokenType.RIGHT_BRACKET then
      .error .mismatchedParenthesis
    else if output.length < 2 then .error .insufficientOperands
    else
      match popTwo output with
      | .error e => .error e
      | .ok (left, right, out1) =>
        match evaluate m left t.symbol right with
        | .error e => .error e
        | .ok v => finalReduce m (out1 ++ [v]) rest

/-- calculator.cpp lines 106-166: the token scan, threading the contract map
(which `operator[]` can grow), the operand queue and the operator stack. -/
def scanTokens (m : ContractMap) (output : List ℚ) (operators : List Token) :
    List Token → Except CalcError (ContractMap × List ℚ × List Token)
  | [] => .ok (m, output, operators)
  | t :: ts =>
    match t.type with
    | .NUMBER => scanTokens m (output ++ [t.value]) operators ts
    | .OPERATOR =>
      match reduceOps m t.symbol output operators with
      | .error e => .error e
      | .ok (m1, out1, ops1) => scanTokens m1 out1 (t :: ops1) ts
    | .LEFT_BRACKET => scanTokens m output (t :: operators) ts
    | .RIGHT_BRACKET =>
      match reduceTilBracket m output operators with
      | .error e => .error e
      | .ok (m1, out1, ops1) => scanTokens m1 out1 ops1 ts

/-- calculator.cpp lines 101-192: `expression`. Scans the tokens, runs the
final reduction, and returns `output.front()` — on an empty queue that read
is undefined behaviour (`ubEmptyFront`). -/
def expression (tokens : List Token) : Except CalcError ℚ :=
  match scanTokens opContracts [] [] tokens with
  | .error e => .error e
  | .ok (m, output, operators) =>
    match finalReduce m output operators with
    | .error e => .error e
    | .ok out =>
      match out with
      | [] => .error .ubEmptyFront
      | v :: _ => .ok v

/-- calculator.cpp line 203: the driver skips a line exactly when it has zero
characters (`input.empty()`). -/
def mainSkips (input : String) : Bool := input.isEmpty

/-- calculator.cpp lines 207-208: one driver iteration on a non-skipped
line — tokenise, then evaluate. -/
def runLine (input : String) : Except CalcError ℚ :=
  match tokenise input with
  | .error e => .error e
  | .ok tokens => expression tokens

instance {ε α : Type} [DecidableEq ε] [DecidableEq α] : DecidableEq (Except ε α) :=
  fun a b =>
    match a, b with
    | .ok x, .ok y =>
      if h : x = y then .isTrue (by rw [h]) else .isFalse (by intro hc; cases hc; exact h rfl)
    | .error x, .error y =>
      if h : x = y then .isTrue (by rw [h]) else .isFalse (by intro hc; cases hc; exact h rfl)
    | .ok _, .error _ => .isFalse (by intro hc; cases hc)
    | .error _, .ok _ => .isFalse (by intro hc; cases hc)

/-! Claims -/

/-- C1: the claim states that evaluating the token sequence of `2+3*4`
returns 14. It does not: the code pushes operands into a FIFO
`std::queue` and pops them from the FRONT, so the deferred `*` reduction
multiplies the two OLDEST operands (2 and 3) and the final `+` adds 4 to
that product — the program prints 10, not 14 (and not 20 either). -/
theorem C1_two_plus_three_times_four_gives_ten :
    runLine "2+3*4" = .ok 10 ∧ runLine "2+3*4" ≠ .ok 14 := by
  have h : tokenise "2+3*4" = .ok [{ type := .NUMBER, value := 2 },
      { type := .OPERATOR, symbol := '+' }, { type := .NUMBER, value := 3 },
      { type := .OPERATOR, symbol := '*' }, { type := .NUMBER, value := 4 }] := by
    simp +decide [tokenise, tokeniseAux, signIsNumberStart, parseFloat, parseAbs,
      parseMantissa, parseMantissaRest, takeDigits, parseExpSuffix, parseExpAfterE,
      parseExpDigits, digitsVal, digToNat]
  constructor
  · rw [runLine, h]
    simp +decide [expression, scanTokens, reduceOps, reduceTilBracket, finalReduce,
      evaluate, mapFind, mapIndex, popTwo, opContracts, powRat]
    all_goals norm_num
  · rw [runLine, h]
    simp +decide [expression, scanTokens, reduceOps, reduceTilBracket, finalReduce,
      evaluate, mapFind, mapIndex, popTwo, opContracts, powRat]
    all_goals norm_num

/-- C2: the claim states that every well-formed fully parenthesized
`+ - * /` expression evaluates to its mathematical value, in particular
`(1+2)*3` to 9 and `2-3*4` to -10. The first instance does hold, but the
FIFO operand queue makes `2-3*4` evaluate to 4 - (2*3) = -2, not -10, so
the claim fails on the code. -/
theorem C2_paren_ok_but_two_minus_three_times_four_gives_minus_two :
    runLine "(1+2)*3" = .ok 9 ∧ runLine "2-3*4" = .ok (-2) ∧
      runLine "2-3*4" ≠ .ok (-10) := by
  have h1 : tokenise "(1+2)*3" = .ok [{ type := .LEFT_BRACKET },
      { type := .NUMBER, value := 1 }, { type := .OPERATOR, symbol := '+' },
      { type := .NUMBER, value := 2 }, { type := .RIGHT_BRACKET },
      { type := .OPERATOR, symbol := '*' }, { type := .NUMBER, value := 3 }] := by
    simp +decide [tokenise, tokeniseAux, signIsNumberStart, parseFloat, parseAbs,
      parseMantissa, parseMantissaRest, takeDigits, parseExpSuffix, parseExpAfterE,
      parseExpDigits, digitsVal, digToNat]
  have h2 : tokenise "2-3*4" = .ok [{ type := .NUMBER, value := 2 },
      { type := .OPERATOR, symbol := '-' }, { type := .NUMBER, value := 3 },
      { type := .OPERATOR, symbol := '*' }, { type := .NUMBER, value := 4 }] := by
    simp +decide [tokenise, tokeniseAux, signIsNumberStart, parseFloat, parseAbs,
      parseMantissa, parseMantissaRest, takeDigits, parseExpSuffix, parseExpAfterE,
      parseExpDigits, digitsVal, digToNat]
  refine ⟨?_, ?_, ?_⟩
  · rw [runLine, h1]
    simp +decide [expression, scanTokens, reduceOps, reduceTilBracket, finalReduce,
      evaluate, mapFind, mapIndex, popTwo, opContracts, powRat]
    all_goals norm_num
  · rw [runLine, h2]
    simp +decide [expression, scanTokens, reduceOps, reduceTilBracket, finalReduce,
      evaluate, mapFind, mapIndex, popTwo, opContracts, powRat]
    all_goals norm_num
  · rw [runLine, h2]
    simp +decide [expression, scanTokens, reduceOps, reduceTilBracket, finalReduce,
      evaluate, mapFind, mapIndex, popTwo, opContracts, powRat]
    all_goals norm_num

/-- C3: the claim states `2^3^2` returns 512 = 2^(3^2). The strict `<`
comparison does let the two `^` stack (no reduction on the tie), but the
FIFO operand queue then feeds the first popped `^` the two OLDEST operands:
pow(2,3) = 8 is computed first and then pow(2,8) = 256 — the program
returns 256, not 512. -/
theorem C3_two_pow_three_pow_two_gives_256 :
    runLine "2^3^2" = .ok 256 ∧ runLine "2^3^2" ≠ .ok 512 := by
  have h : tokenise "2^3^2" = .ok [{ type := .NUMBER, value := 2 },
      { type := .OPERATOR, symbol := '^' }, { type := .NUMBER, value := 3 },
      { type := .OPERATOR, symbol := '^' }, { type := .NUMBER, value := 2 }] := by
    simp +decide [tokenise, tokeniseAux, signIsNumberStart, parseFloat, parseAbs,
      parseMantissa, parseMantissaRest, takeDigits, parseExpSuffix, parseExpAfterE,
      parseExpDigits, digitsVal, digToNat]
  constructor
  · rw [runLine, h]
    simp +decide [expression, scanTokens, reduceOps, reduceTilBracket, finalReduce,
      evaluate, mapFind, mapIndex, popTwo, opContracts, powRat]
    all_goals norm_num
  · rw [runLine, h]
    simp +decide [expression, scanTokens, reduceOps, reduceTilBracket, finalReduce,
      evaluate, mapFind, mapIndex, popTwo, opContracts, powRat]
    all_goals norm_num

/-- C4: the claim states every operator application with fewer than two
operands fails with `InsufficientOperands`. Only the post-scan loop is
guarded (`1+*2` does report it); the right-bracket reduction is not: on
`1+)` the code pops `+` with a single queued operand and reads the front
of an empty queue — undefined behaviour, not `InsufficientOperands`. -/
theorem C4_right_bracket_pops_are_unguarded :
    runLine "1+)" = .error .ubEmptyFront ∧
      runLine "1+)" ≠ .error .insufficientOperands ∧
      runLine "1+*2" = .error .insufficientOperands := by
  have h1 : tokenise "1+)" = .ok [{ type := .NUMBER, value := 1 },
      { type := .OPERATOR, symbol := '+' }, { type := .RIGHT_BRACKET }] := by
    simp +decide [tokenise, tokeniseAux, signIsNumberStart, parseFloat, parseAbs,
      parseMantissa, parseMantissaRest, takeDigits, parseExpSuffix, parseExpAfterE,
      parseExpDigits, digitsVal, digToNat]
  have h2 : tokenise "1+*2" = .ok [{ type := .NUMBER, value := 1 },
      { type := .OPERATOR, symbol := '+' }, { type := .OPERATOR, symbol := '*' },
      { type := .NUMBER, value := 2 }] := by
    simp +decide [tokenise, tokeniseAux, signIsNumberStart, parseFloat, parseAbs,
      parseMantissa, parseMantissaRest, takeDigits, parseExpSuffix, parseExpAfterE,
      parseExpDigits, digitsVal, digToNat]
  refine ⟨?_, ?_, ?_⟩
  · rw [runLine, h1]
    simp +decide [expression, scanTokens, reduceOps, reduceTilBracket, finalReduce,
      evaluate, mapFind, mapIndex, popTwo, opContracts, powRat]
    all_goals norm_num
  · rw [runLine, h1]
    simp +decide [expression, scanTokens, reduceOps, reduceTilBracket, finalReduce,
      evaluate, mapFind, mapIndex, popTwo, opContracts, powRat]
    all_goals norm_num
  · rw [runLine, h2]
    simp +decide [expression, scanTokens, reduceOps, reduceTilBracket, finalReduce,
      evaluate, mapFind, mapIndex, popTwo, opContracts, powRat]
    all_goals norm_num

/-- C5: the claim states the operator contract table is never mutated by
any tokenization or evaluation step. It is: the reduction loop looks
contracts up with `opContracts[token.symbol]` (`std::map::operator[]`),
which INSERTS a default-constructed contract when the symbol is missing.
The first conjunct is exactly that step for `%` with a left bracket on the
operator stack (as evaluation of `(3%2)` reaches it): the map grows by one
entry. The full run then finds that uninitialized entry and calls its
uninitialized function pointer. -/
theorem C5_contract_table_mutated_by_evaluation :
    reduceOps opContracts '%' [3] [{ type := .LEFT_BRACKET }] =
      .ok (opContracts ++ [('%', none)], [3], [{ type := .LEFT_BRACKET }]) ∧
    opContracts ++ [('%', none)] ≠ opContracts ∧
    runLine "(3%2)" = .error .ubUninitCall := by
  refine ⟨rfl, fun hm => by simpa [opContracts] using congrArg List.length hm, ?_⟩
  have h : tokenise "(3%2)" = .ok [{ type := .LEFT_BRACKET },
      { type := .NUMBER, value := 3 }, { type := .OPERATOR, symbol := '%' },
      { type := .NUMBER, value := 2 }, { type := .RIGHT_BRACKET }] := by
    simp +decide [tokenise, tokeniseAux, signIsNumberStart, parseFloat, parseAbs,
      parseMantissa, parseMantissaRest, takeDigits, parseExpSuffix, parseExpAfterE,
      parseExpDigits, digitsVal, digToNat]
  rw [runLine, h]
  simp +decide [expression, scanTokens, reduceOps, reduceTilBracket, finalReduce,
    evaluate, mapFind, mapIndex, popTwo, opContracts, powRat]

/-- C6: the claim states an operator symbol absent from the table always
fails with `UnsupportedOperator` at the moment it is applied; `3%2` does.
But when the reduction loop runs with a non-empty operator stack before the
unknown operator is applied — as in `(3%2)` — `opContracts['%']` has
already inserted a default-constructed entry, so `evaluate`'s `find`
SUCCEEDS and the code calls an uninitialized function pointer instead of
reporting `UnsupportedOperator`. -/
theorem C6_unsupported_operator_not_always_reported :
    runLine "3%2" = .error (.unsupportedOperator '%') ∧
      runLine "(3%2)" = .error .ubUninitCall ∧
      runLine "(3%2)" ≠ .error (.unsupportedOperator '%') := by
  have h1 : tokenise "3%2" = .ok [{ type := .NUMBER, value := 3 },
      { type := .OPERATOR, symbol := '%' }, { type := .NUMBER, value := 2 }] := by
    simp +decide [tokenise, tokeniseAux, signIsNumberStart, parseFloat, parseAbs,
      parseMantissa, parseMantissaRest, takeDigits, parseExpSuffix, parseExpAfterE,
      parseExpDigits, digitsVal, digToNat]
  have h2 : tokenise "(3%2)" = .ok [{ type := .LEFT_BRACKET },
      { type := .NUMBER, value := 3 }, { type := .OPERATOR, symbol := '%' },
      { type := .NUMBER, value := 2 }, { type := .RIGHT_BRACKET }] := by
    simp +decide [tokenise, tokeniseAux, signIsNumberStart, parseFloat, parseAbs,
      parseMantissa, parseMantissaRest, takeDigits, parseExpSuffix, parseExpAfterE,
      parseExpDigits, digitsVal, digToNat]
  refine ⟨?_, ?_, ?_⟩
  · rw [runLine, h1]
    simp +decide [expression, scanTokens, reduceOps, reduceTilBracket, finalReduce,
      evaluate, mapFind, mapIndex, popTwo, opContracts, powRat]
    all_goals norm_num
  · rw [runLine, h2]
    simp +decide [expression, scanTokens, reduceOps, reduceTilBracket, finalReduce,
      evaluate, mapFind, mapIndex, popTwo, opContracts, powRat]
    all_goals norm_num
  · rw [runLine, h2]
    simp +decide [expression, scanTokens, reduceOps, reduceTilBracket, finalReduce,
      evaluate, mapFind, mapIndex, popTwo, opContracts, powRat]
    all_goals norm_num

/-- C7: the claim states `(1+2` and `1+2)` both fail with
`MismatchedParenthesis`: the right-bracket reduction that empties the
operator stack without meeting a left bracket errors, and a bracket left
on the operator stack after the scan errors. Both runs confirm it. -/
theorem C7_mismatched_parenthesis_both_ways :
    runLine "(1+2" = .error .mismatchedParenthesis ∧
      runLine "1+2)" = .error .mismatchedParenthesis := by
  have h1 : tokenise "(1+2" = .ok [{ type := .LEFT_BRACKET },
      { type := .NUMBER, value := 1 }, { type := .OPERATOR, symbol := '+' },
      { type := .NUMBER, value := 2 }] := by
    simp +decide [tokenise, tokeniseAux, signIsNumberStart, parseFloat, parseAbs,
      parseMantissa, parseMantissaRest, takeDigits, parseExpSuffix, parseExpAfterE,
      parseExpDigits, digitsVal, digToNat]
  have h2 : tokenise "1+2)" = .ok [{ type := .NUMBER, value := 1 },
      { type := .OPERATOR, symbol := '+' }, { type := .NUMBER, value := 2 },
      { type := .RIGHT_BRACKET }] := by
    simp +decide [tokenise, tokeniseAux, signIsNumberStart, parseFloat, parseAbs,
      parseMantissa, parseMantissaRest, takeDigits, parseExpSuffix, parseExpAfterE,
      parseExpDigits, digitsVal, digToNat]
  constructor
  · rw [runLine, h1]
    simp +decide [expression, scanTokens, reduceOps, reduceTilBracket, finalReduce,
      evaluate, mapFind, mapIndex, popTwo, opContracts, powRat]
    all_goals norm_num
  · rw [runLine, h2]
    simp +decide [expression, scanTokens, reduceOps, reduceTilBracket, finalReduce,
      evaluate, mapFind, mapIndex, popTwo, opContracts, powRat]
    all_goals norm_num

/-- C8: the claim states a `+`/`-` character starts a signed number literal
precisely when it is the first token or the preceding token is not a
Number (`signIsNumberStart`); a full floating-point literal is then parsed
(`parseFloat`) and its absence is an `InvalidNumber` failure; otherwise the
character is an Operator token. Concretely `3+-2` tokenizes as
3, operator +, number -2, and `3+-` fails with `InvalidNumber`. -/
theorem C8_sign_starts_signed_literal :
    (∀ (c : Char) (rest : List Char) (tokens : List Token),
      c = '+' ∨ c = '-' →
      (signIsNumberStart tokens = true →
        (parseFloat (c :: rest) = none →
          tokeniseAux (c :: rest) tokens = .error .invalidNumber) ∧
        (∀ (v : ℚ) (rest' : List Char), parseFloat (c :: rest) = some (v, rest') →
          tokeniseAux (c :: rest) tokens =
            tokeniseAux rest' (tokens ++ [{ type := .NUMBER, value := v }]))) ∧
      (signIsNumberStart tokens = false →
        tokeniseAux (c :: rest) tokens =
          tokeniseAux rest (tokens ++ [{ type := .OPERATOR, symbol := c }]))) ∧
    tokenise "3+-2" = .ok [{ type := .NUMBER, value := 3 },
      { type := .OPERATOR, symbol := '+' }, { type := .NUMBER, value := -2 }] ∧
    tokenise "3+-" = .error .invalidNumber := by
  refine ⟨?_, ?_, ?_⟩
  · intro c rest tokens hc
    rcases hc with hc | hc <;> subst hc <;>
      refine ⟨fun hs => ⟨fun hp => ?_, fun v rest' hp => ?_⟩, fun hs => ?_⟩ <;>
      rw [tokeniseAux.eq_def] <;> simp +decide [hs] <;>
      split <;>
      first
        | rfl
        | ((rename_i heq; rw [hp] at heq; cases heq) <;> rfl)
  · simp +decide [tokenise, tokeniseAux, signIsNumberStart, parseFloat, parseAbs,
      parseMantissa, parseMantissaRest, takeDigits, parseExpSuffix, parseExpAfterE,
      parseExpDigits, digitsVal, digToNat]
  · simp +decide [tokenise, tokeniseAux, signIsNumberStart, parseFloat, parseAbs,
      parseMantissa, parseMantissaRest, takeDigits, parseExpSuffix, parseExpAfterE,
      parseExpDigits, digitsVal, digToNat]

/-- C8 witness: the general sign rule applied at the concrete start-of-line
input `+3`, whose literal parses to the number 3. -/
theorem C8_sign_starts_signed_literal_witness :
    tokeniseAux ['+', '3'] [] =
      tokeniseAux [] [{ type := TokenType.NUMBER, symbol := ' ', value := 3 }] :=
  ((C8_sign_starts_signed_literal.1 '+' ['3'] [] (Or.inl rfl)).1 rfl).2 3 []
    (by simp +decide [parseFloat, parseAbs, parseMantissa, parseMantissaRest,
      takeDigits, parseExpSuffix, digitsVal, digToNat])

/-- C9: the claim states a line of only spaces (e.g. a single space) is not
skipped by the driver (which special-cases only zero-character lines),
tokenizes to an empty token sequence, and then makes the evaluator read
the front of its empty operand queue — no defined result or error kind. -/
theorem C9_space_only_line_reads_empty_queue :
    mainSkips " " = false ∧ tokenise " " = .ok [] ∧
      runLine " " = .error .ubEmptyFront := by
  refine ⟨rfl, ?_, ?_⟩
  · simp [tokenise, tokeniseAux]
  · have h : tokenise " " = .ok [] := by simp [tokenise, tokeniseAux]
    rw [runLine, h]
    simp [expression, scanTokens, finalReduce]

/-- C10: the claim states that because the sign rule only checks whether the
preceding token is a Number, the `-` right after `)` in `(1+2)-3` is
consumed as the literal -3, leaving no operator between the bracketed sum
and it, and the evaluator silently returns 3 — the front of the operand
queue — rather than 0 or an error. -/
theorem C10_minus_after_bracket_swallowed :
    tokenise "(1+2)-3" = .ok [{ type := .LEFT_BRACKET },
      { type := .NUMBER, value := 1 }, { type := .OPERATOR, symbol := '+' },
      { type := .NUMBER, value := 2 }, { type := .RIGHT_BRACKET },
      { type := .NUMBER, value := -3 }] ∧
    runLine "(1+2)-3" = .ok 3 ∧ runLine "(1+2)-3" ≠ .ok 0 := by
  have h : tokenise "(1+2)-3" = .ok [{ type := .LEFT_BRACKET },
      { type := .NUMBER, value := 1 }, { type := .OPERATOR, symbol := '+' },
      { type := .NUMBER, value := 2 }, { type := .RIGHT_BRACKET },
      { type := .NUMBER, value := -3 }] := by
    simp +decide [tokenise, tokeniseAux, signIsNumberStart, parseFloat, parseAbs,
      parseMantissa, parseMantissaRest, takeDigits, parseExpSuffix, parseExpAfterE,
      parseExpDigits, digitsVal, digToNat]
  refine ⟨h, ?_, ?_⟩
  · rw [runLine, h]
    simp +decide [expression, scanTokens, reduceOps, reduceTilBracket, finalReduce,
      evaluate, mapFind, mapIndex, popTwo, opContracts, powRat]
    all_goals norm_num
  · rw [runLine, h]
    simp +decide [expression, scanTokens, reduceOps, reduceTilBracket, finalReduce,
      evaluate, mapFind, mapIndex, popTwo, opContracts, powRat]
    all_goals norm_num

end ShuntingYard
